import Mathlib

/-!
Verification of the vex linear-algebra library (Vector2/3/4, Matrix2/3/4).

The Rust code computes over IEEE-754 `f32`.  The embedding models `f32`
values at two levels of abstraction:

* the main level uses exact rational arithmetic (`ℚ`): every arithmetic
  operation of the source is translated literally, term by term, with `ℚ`
  in place of `f32`.  The primitive `f32::sqrt`, `sin`, `cos` and
  `to_radians` have no exact rational counterpart, so operations calling
  them take the primitive as an explicit function argument and the
  theorems hold for every choice of that function;
* a second level (`FQ`, `F32V`) additionally models the non-numeric
  `f32` values (NaN, and the negative zero bit pattern) where a claim is
  specifically about IEEE comparison semantics.

In-place mutation (`&mut self`) is modelled by explicit state passing —
a Rust method mutating `self` and returning `r` becomes a Lean function
returning the pair `(r, updated self)`, and a factory built by a chain of
setter calls becomes the same chain of functional record updates (the
order of the setter calls is preserved, which matters where the source
sets the same element twice).
-/

namespace Vex

/-- Models `std::f32::EPSILON` (the machine epsilon of `f32`, exactly `2⁻²³`). -/
def EPSILON : ℚ := 1 / 2 ^ 23

/-- Embeds `struct Vector2 { x: f32, y: f32 }` from src/src/vector2.rs. -/
structure Vector2 where
  x : ℚ
  y : ℚ
deriving DecidableEq

/-- Embeds `Vector2::make`. -/
def Vector2.make (x y : ℚ) : Vector2 :=
  Vector2.mk x y

/-- Embeds `Vector2::min` (componentwise minimum). -/
def Vector2.min (a b : Vector2) : Vector2 :=
  Vector2.make (Min.min a.x b.x) (Min.min a.y b.y)

/-- Embeds `Vector2::max` (componentwise maximum). -/
def Vector2.max (a b : Vector2) : Vector2 :=
  Vector2.make (Max.max a.x b.x) (Max.max a.y b.y)

/-- Embeds `Vector2::set`. -/
def Vector2.set (_self : Vector2) (x y : ℚ) : Vector2 :=
  Vector2.mk x y

/-- Embeds `Vector2::clamp` (in place; the updated `self` is returned). -/
def Vector2.clamp (self a b : Vector2) : Vector2 :=
  let low := Vector2.min a b
  let high := Vector2.max a b
  let result := Vector2.max low (Vector2.min self high)
  self.set result.x result.y

/-- Embeds `Vector2::mag_sq`. -/
def Vector2.mag_sq (self : Vector2) : ℚ :=
  self.x * self.x + self.y * self.y

/-- Embeds `Vector2::mag`; the `f32::sqrt` primitive is passed in as `sqrt`. -/
def Vector2.mag (sqrt : ℚ → ℚ) (self : Vector2) : ℚ :=
  sqrt self.mag_sq

/-- Embeds `Vector2::norm` (in place, returns the length): the result is
the returned `f32` paired with the updated `self`. -/
def Vector2.norm (sqrt : ℚ → ℚ) (self : Vector2) : ℚ × Vector2 :=
  let length := Vector2.mag sqrt self
  if length > EPSILON then
    (length, Vector2.mk (self.x / length) (self.y / length))
  else
    (0, self)

/-- Embeds `impl Index<u32> for Vector2`: the out-of-range arm calls
`panic!`, modelled as `none`. -/
def Vector2.index (self : Vector2) (i : ℕ) : Option ℚ :=
  match i with
  | 0 => some self.x
  | 1 => some self.y
  | _ => none

/-- Embeds `impl IndexMut<u32> for Vector2`: writing component `i`; the
out-of-range arm calls `panic!`, modelled as `none`. -/
def Vector2.index_mut (self : Vector2) (i : ℕ) (v : ℚ) : Option Vector2 :=
  match i with
  | 0 => some (Vector2.mk v self.y)
  | 1 => some (Vector2.mk self.x v)
  | _ => none

/-- Embeds `struct Vector3 { x, y, z }` from src/src/vector3.rs. -/
structure Vector3 where
  x : ℚ
  y : ℚ
  z : ℚ
deriving DecidableEq

/-- Embeds `Vector3::construct`. -/
def Vector3.construct (x y z : ℚ) : Vector3 :=
  Vector3.mk x y z

/-- Embeds `Vector3::cross`. -/
def Vector3.cross (a b : Vector3) : Vector3 :=
  Vector3.construct
    (a.y * b.z - a.z * b.y)
    (a.z * b.x - a.x * b.z)
    (a.x * b.y - a.y * b.x)

/-- Embeds `impl Neg for Vector3`. -/
def Vector3.neg (self : Vector3) : Vector3 :=
  Vector3.construct (-self.x) (-self.y) (-self.z)

/-- Embeds `Vector3::min` (componentwise minimum). -/
def Vector3.min (a b : Vector3) : Vector3 :=
  Vector3.construct (Min.min a.x b.x) (Min.min a.y b.y) (Min.min a.z b.z)

/-- Embeds `Vector3::max` (componentwise maximum). -/
def Vector3.max (a b : Vector3) : Vector3 :=
  Vector3.construct (Max.max a.x b.x) (Max.max a.y b.y) (Max.max a.z b.z)

/-- Embeds `Vector3::set`. -/
def Vector3.set (_self : Vector3) (x y z : ℚ) : Vector3 :=
  Vector3.mk x y z

/-- Embeds `Vector3::clamp` (in place; the updated `self` is returned). -/
def Vector3.clamp (self a b : Vector3) : Vector3 :=
  let low := Vector3.min a b
  let high := Vector3.max a b
  let result := Vector3.max low (Vector3.min self high)
  self.set result.x result.y result.z

/-- Embeds `Vector3::magnitude_squared`. -/
def Vector3.magnitude_squared (self : Vector3) : ℚ :=
  self.x * self.x + self.y * self.y + self.z * self.z

/-- Embeds `Vector3::magnitude`; `f32::sqrt` is passed in as `sqrt`. -/
def Vector3.magnitude (sqrt : ℚ → ℚ) (self : Vector3) : ℚ :=
  sqrt self.magnitude_squared

/-- Embeds `Vector3::normalize` (in place, returns the length). -/
def Vector3.normalize (sqrt : ℚ → ℚ) (self : Vector3) : ℚ × Vector3 :=
  let length := Vector3.magnitude sqrt self
  if length > EPSILON then
    (length, Vector3.mk (self.x / length) (self.y / length) (self.z / length))
  else
    (0, self)

/-- Embeds `impl ops::Index<u32> for Vector3` (`panic!` modelled as `none`). -/
def Vector3.index (self : Vector3) (i : ℕ) : Option ℚ :=
  match i with
  | 0 => some self.x
  | 1 => some self.y
  | 2 => some self.z
  | _ => none

/-- Embeds `impl ops::IndexMut<u32> for Vector3` (`panic!` modelled as `none`). -/
def Vector3.index_mut (self : Vector3) (i : ℕ) (v : ℚ) : Option Vector3 :=
  match i with
  | 0 => some (Vector3.mk v self.y self.z)
  | 1 => some (Vector3.mk self.x v self.z)
  | 2 => some (Vector3.mk self.x self.y v)
  | _ => none

/-- Embeds `struct Vector4 { x, y, z, w }` from src/src/vector4.rs. -/
structure Vector4 where
  x : ℚ
  y : ℚ
  z : ℚ
  w : ℚ
deriving DecidableEq

/-- Embeds `Vector4::make`. -/
def Vector4.make (x y z w : ℚ) : Vector4 :=
  Vector4.mk x y z w

/-- Embeds `Vector4::min` (componentwise minimum). -/
def Vector4.min (a b : Vector4) : Vector4 :=
  Vector4.make (Min.min a.x b.x) (Min.min a.y b.y) (Min.min a.z b.z) (Min.min a.w b.w)

/-- Embeds `Vector4::max` (componentwise maximum). -/
def Vector4.max (a b : Vector4) : Vector4 :=
  Vector4.make (Max.max a.x b.x) (Max.max a.y b.y) (Max.max a.z b.z) (Max.max a.w b.w)

/-- Embeds `Vector4::set`. -/
def Vector4.set (_self : Vector4) (x y z w : ℚ) : Vector4 :=
  Vector4.mk x y z w

/-- Embeds `Vector4::clamp` (in place; the updated `self` is returned). -/
def Vector4.clamp (self a b : Vector4) : Vector4 :=
  let low := Vector4.min a b
  let high := Vector4.max a b
  let result := Vector4.max low (Vector4.min self high)
  self.set result.x result.y result.z result.w

/-- Embeds `Vector4::mag_sq`. -/
def Vector4.mag_sq (self : Vector4) : ℚ :=
  self.x * self.x + self.y * self.y + self.z * self.z + self.w * self.w

/-- Embeds `Vector4::mag`; `f32::sqrt` is passed in as `sqrt`. -/
def Vector4.mag (sqrt : ℚ → ℚ) (self : Vector4) : ℚ :=
  sqrt self.mag_sq

/-- Embeds `Vector4::norm` (in place, returns the length). -/
def Vector4.norm (sqrt : ℚ → ℚ) (self : Vector4) : ℚ × Vector4 :=
  let length := Vector4.mag sqrt self
  if length > EPSILON then
    (length,
     Vector4.mk (self.x / length) (self.y / length) (self.z / length) (self.w / length))
  else
    (0, self)

/-- Embeds `impl ops::Index<u32> for Vector4` (`panic!` modelled as `none`). -/
def Vector4.index (self : Vector4) (i : ℕ) : Option ℚ :=
  match i with
  | 0 => some self.x
  | 1 => some self.y
  | 2 => some self.z
  | 3 => some self.w
  | _ => none

/-- Embeds `impl ops::IndexMut<u32> for Vector4` (`panic!` modelled as `none`). -/
def Vector4.index_mut (self : Vector4) (i : ℕ) (v : ℚ) : Option Vector4 :=
  match i with
  | 0 => some (Vector4.mk v self.y self.z self.w)
  | 1 => some (Vector4.mk self.x v self.z self.w)
  | 2 => some (Vector4.mk self.x self.y v self.w)
  | 3 => some (Vector4.mk self.x self.y self.z v)
  | _ => none

/-- Embeds `struct Matrix2 { m: [f32; 4] }` from src/src/matrix2.rs.  The
flat column-major array is modelled by one field per slot, in array
order: `m11 = m[0]`, `m21 = m[1]`, `m12 = m[2]`, `m22 = m[3]`. -/
structure Matrix2 where
  m11 : ℚ
  m21 : ℚ
  m12 : ℚ
  m22 : ℚ
deriving DecidableEq

/-- Embeds `Matrix2::make` (arguments in column-major order, matching the
array layout). -/
def Matrix2.make (m11 m21 m12 m22 : ℚ) : Matrix2 :=
  Matrix2.mk m11 m21 m12 m22

/-- Embeds `matrix2::IDENTITY` (and `Matrix2::new`). -/
def Matrix2.identity : Matrix2 :=
  Matrix2.mk 1 0 0 1

/-- Embeds `Matrix2::determinant`. -/
def Matrix2.determinant (self : Matrix2) : ℚ :=
  self.m11 * self.m22 - self.m12 * self.m21

/-- Embeds `Matrix2::set_m11`. -/
def Matrix2.set_m11 (self : Matrix2) (v : ℚ) : Matrix2 :=
  { self with m11 := v }

/-- Embeds `Matrix2::set_m21`. -/
def Matrix2.set_m21 (self : Matrix2) (v : ℚ) : Matrix2 :=
  { self with m21 := v }

/-- Embeds `Matrix2::set_m12`. -/
def Matrix2.set_m12 (self : Matrix2) (v : ℚ) : Matrix2 :=
  { self with m12 := v }

/-- Embeds `Matrix2::set_m22`. -/
def Matrix2.set_m22 (self : Matrix2) (v : ℚ) : Matrix2 :=
  { self with m22 := v }

/-- Embeds `Matrix2::inverse` (in place; returns the `bool` paired with
the updated `self`). -/
def Matrix2.inverse (self : Matrix2) : Bool × Matrix2 :=
  let det := self.determinant
  if det = 0 then
    (false, self)
  else
    let inv_det := 1 / det
    let m11 := self.m22 * inv_det
    let m21 := -self.m21 * inv_det
    let m12 := -self.m12 * inv_det
    let m22 := self.m11 * inv_det
    (true, ((((self.set_m11 m11).set_m21 m21).set_m12 m12).set_m22 m22))

/-- Embeds `impl Mul<Matrix2> for Matrix2` (matrix-by-matrix product). -/
def Matrix2.mul_matrix (self rhs : Matrix2) : Matrix2 :=
  let m11 := self.m11 * rhs.m11 + self.m12 * rhs.m21
  let m21 := self.m21 * rhs.m11 + self.m22 * rhs.m21
  let m12 := self.m11 * rhs.m12 + self.m12 * rhs.m22
  let m22 := self.m21 * rhs.m12 + self.m22 * rhs.m22
  Matrix2.make m11 m21 m12 m22

/-- Embeds `impl Mul<f32> for Matrix2` (componentwise, a loop over the
four array slots). -/
def Matrix2.mul_scalar (self : Matrix2) (rhs : ℚ) : Matrix2 :=
  Matrix2.mk (self.m11 * rhs) (self.m21 * rhs) (self.m12 * rhs) (self.m22 * rhs)

/-- Embeds `impl Add<f32> for Matrix2` (componentwise). -/
def Matrix2.add_scalar (self : Matrix2) (rhs : ℚ) : Matrix2 :=
  Matrix2.mk (self.m11 + rhs) (self.m21 + rhs) (self.m12 + rhs) (self.m22 + rhs)

/-- Embeds `impl Add<Matrix2> for Matrix2` (componentwise). -/
def Matrix2.add_matrix (self rhs : Matrix2) : Matrix2 :=
  Matrix2.mk (self.m11 + rhs.m11) (self.m21 + rhs.m21) (self.m12 + rhs.m12)
    (self.m22 + rhs.m22)

/-- Embeds `impl Sub<f32> for Matrix2` (componentwise). -/
def Matrix2.sub_scalar (self : Matrix2) (rhs : ℚ) : Matrix2 :=
  Matrix2.mk (self.m11 - rhs) (self.m21 - rhs) (self.m12 - rhs) (self.m22 - rhs)

/-- Embeds `impl Sub<Matrix2> for Matrix2` (componentwise). -/
def Matrix2.sub_matrix (self rhs : Matrix2) : Matrix2 :=
  Matrix2.mk (self.m11 - rhs.m11) (self.m21 - rhs.m21) (self.m12 - rhs.m12)
    (self.m22 - rhs.m22)

/-- Embeds `impl Div<f32> for Matrix2` (componentwise). -/
def Matrix2.div_scalar (self : Matrix2) (rhs : ℚ) : Matrix2 :=
  Matrix2.mk (self.m11 / rhs) (self.m21 / rhs) (self.m12 / rhs) (self.m22 / rhs)

/-- Row `i`, column `j` element of a `Matrix2` (0-based), relating the
column-major slots to matrix positions. -/
def Matrix2.entry (a : Matrix2) (i j : ℕ) : ℚ :=
  match i, j with
  | 0, 0 => a.m11
  | 1, 0 => a.m21
  | 0, 1 => a.m12
  | 1, 1 => a.m22
  | _, _ => 0

/-- Embeds `struct Matrix3 { m: [f32; 9] }` from src/src/matrix3.rs, one
field per column-major array slot (`m11 = m[0]`, …, `m33 = m[8]`). -/
structure Matrix3 where
  m11 : ℚ
  m21 : ℚ
  m31 : ℚ
  m12 : ℚ
  m22 : ℚ
  m32 : ℚ
  m13 : ℚ
  m23 : ℚ
  m33 : ℚ
deriving DecidableEq

/-- Embeds `Matrix3::make` (arguments in column-major order). -/
def Matrix3.make (m11 m21 m31 m12 m22 m32 m13 m23 m33 : ℚ) : Matrix3 :=
  Matrix3.mk m11 m21 m31 m12 m22 m32 m13 m23 m33

/-- Embeds `matrix3::IDENTITY` (and `Matrix3::new`). -/
def Matrix3.identity : Matrix3 :=
  Matrix3.mk 1 0 0 0 1 0 0 0 1

/-- Embeds `Matrix3::determinant` (cofactor expansion along the first row). -/
def Matrix3.determinant (self : Matrix3) : ℚ :=
  self.m11 * (self.m22 * self.m33 - self.m23 * self.m32)
    - (self.m12 * (self.m21 * self.m33 - self.m23 * self.m31))
    + (self.m13 * (self.m21 * self.m32 - self.m22 * self.m31))

/-- Embeds `Matrix3::set_m11`. -/
def Matrix3.set_m11 (self : Matrix3) (v : ℚ) : Matrix3 :=
  { self with m11 := v }

/-- Embeds `Matrix3::set_m21`. -/
def Matrix3.set_m21 (self : Matrix3) (v : ℚ) : Matrix3 :=
  { self with m21 := v }

/-- Embeds `Matrix3::set_m31`. -/
def Matrix3.set_m31 (self : Matrix3) (v : ℚ) : Matrix3 :=
  { self with m31 := v }

/-- Embeds `Matrix3::set_m12`. -/
def Matrix3.set_m12 (self : Matrix3) (v : ℚ) : Matrix3 :=
  { self with m12 := v }

/-- Embeds `Matrix3::set_m22`. -/
def Matrix3.set_m22 (self : Matrix3) (v : ℚ) : Matrix3 :=
  { self with m22 := v }

/-- Embeds `Matrix3::set_m32`. -/
def Matrix3.set_m32 (self : Matrix3) (v : ℚ) : Matrix3 :=
  { self with m32 := v }

/-- Embeds `Matrix3::set_m13`. -/
def Matrix3.set_m13 (self : Matrix3) (v : ℚ) : Matrix3 :=
  { self with m13 := v }

/-- Embeds `Matrix3::set_m23`. -/
def Matrix3.set_m23 (self : Matrix3) (v : ℚ) : Matrix3 :=
  { self with m23 := v }

/-- Embeds `Matrix3::set_m33`. -/
def Matrix3.set_m33 (self : Matrix3) (v : ℚ) : Matrix3 :=
  { self with m33 := v }

/-- Embeds `Matrix3::inverse` (in place; returns the `bool` paired with
the updated `self`).  Each new element is a 2x2 sub-determinant, built
through `Matrix2::make` exactly as in the source, times `inv_det`. -/
def Matrix3.inverse (self : Matrix3) : Bool × Matrix3 :=
  let det := self.determinant
  if det = 0 then
    (false, self)
  else
    let inv_det := 1 / det
    let m11 := (Matrix2.make self.m22 self.m23 self.m32 self.m33).determinant * inv_det
    let m21 := (Matrix2.make self.m23 self.m21 self.m33 self.m31).determinant * inv_det
    let m31 := (Matrix2.make self.m21 self.m22 self.m31 self.m32).determinant * inv_det
    let m12 := (Matrix2.make self.m13 self.m12 self.m33 self.m32).determinant * inv_det
    let m22 := (Matrix2.make self.m11 self.m13 self.m31 self.m33).determinant * inv_det
    let m32 := (Matrix2.make self.m12 self.m11 self.m32 self.m31).determinant * inv_det
    let m13 := (Matrix2.make self.m12 self.m13 self.m22 self.m23).determinant * inv_det
    let m23 := (Matrix2.make self.m13 self.m11 self.m23 self.m21).determinant * inv_det
    let m33 := (Matrix2.make self.m11 self.m12 self.m21 self.m22).determinant * inv_det
    (true,
      (((((((((self.set_m11 m11).set_m21 m21).set_m31 m31).set_m12 m12).set_m22
        m22).set_m32 m32).set_m13 m13).set_m23 m23).set_m33 m33))

/-- Embeds `impl Mul<Matrix3> for Matrix3` (matrix-by-matrix product,
row-by-column dot products as written in the source). -/
def Matrix3.mul_matrix (self rhs : Matrix3) : Matrix3 :=
  let m11 := self.m11 * rhs.m11 + self.m12 * rhs.m21 + self.m13 * rhs.m31
  let m21 := self.m21 * rhs.m11 + self.m22 * rhs.m21 + self.m23 * rhs.m31
  let m31 := self.m31 * rhs.m11 + self.m32 * rhs.m21 + self.m33 * rhs.m31
  let m12 := self.m11 * rhs.m12 + self.m12 * rhs.m22 + self.m13 * rhs.m32
  let m22 := self.m21 * rhs.m12 + self.m22 * rhs.m22 + self.m23 * rhs.m32
  let m32 := self.m31 * rhs.m12 + self.m32 * rhs.m22 + self.m33 * rhs.m32
  let m13 := self.m11 * rhs.m13 + self.m12 * rhs.m23 + self.m13 * rhs.m33
  let m23 := self.m21 * rhs.m13 + self.m22 * rhs.m23 + self.m23 * rhs.m33
  let m33 := self.m31 * rhs.m13 + self.m32 * rhs.m23 + self.m33 * rhs.m33
  Matrix3.make m11 m21 m31 m12 m22 m32 m13 m23 m33

/-- Embeds `impl Mul<f32> for Matrix3` (componentwise, a loop over the
nine array slots). -/
def Matrix3.mul_scalar (self : Matrix3) (rhs : ℚ) : Matrix3 :=
  Matrix3.mk (self.m11 * rhs) (self.m21 * rhs) (self.m31 * rhs) (self.m12 * rhs)
    (self.m22 * rhs) (self.m32 * rhs) (self.m13 * rhs) (self.m23 * rhs) (self.m33 * rhs)

/-- Embeds `impl Add<f32> for Matrix3` (componentwise). -/
def Matrix3.add_scalar (self : Matrix3) (rhs : ℚ) : Matrix3 :=
  Matrix3.mk (self.m11 + rhs) (self.m21 + rhs) (self.m31 + rhs) (self.m12 + rhs)
    (self.m22 + rhs) (self.m32 + rhs) (self.m13 + rhs) (self.m23 + rhs) (self.m33 + rhs)

/-- Embeds `impl Add<Matrix3> for Matrix3` (componentwise). -/
def Matrix3.add_matrix (self rhs : Matrix3) : Matrix3 :=
  Matrix3.mk (self.m11 + rhs.m11) (self.m21 + rhs.m21) (self.m31 + rhs.m31)
    (self.m12 + rhs.m12) (self.m22 + rhs.m22) (self.m32 + rhs.m32)
    (self.m13 + rhs.m13) (self.m23 + rhs.m23) (self.m33 + rhs.m33)

/-- Embeds `impl Sub<f32> for Matrix3` (componentwise). -/
def Matrix3.sub_scalar (self : Matrix3) (rhs : ℚ) : Matrix3 :=
  Matrix3.mk (self.m11 - rhs) (self.m21 - rhs) (self.m31 - rhs) (self.m12 - rhs)
    (self.m22 - rhs) (self.m32 - rhs) (self.m13 - rhs) (self.m23 - rhs) (self.m33 - rhs)

/-- Embeds `impl Sub<Matrix3> for Matrix3` (componentwise). -/
def Matrix3.sub_matrix (self rhs : Matrix3) : Matrix3 :=
  Matrix3.mk (self.m11 - rhs.m11) (self.m21 - rhs.m21) (self.m31 - rhs.m31)
    (self.m12 - rhs.m12) (self.m22 - rhs.m22) (self.m32 - rhs.m32)
    (self.m13 - rhs.m13) (self.m23 - rhs.m23) (self.m33 - rhs.m33)

/-- Embeds `impl Div<f32> for Matrix3` (componentwise). -/
def Matrix3.div_scalar (self : Matrix3) (rhs : ℚ) : Matrix3 :=
  Matrix3.mk (self.m11 / rhs) (self.m21 / rhs) (self.m31 / rhs) (self.m12 / rhs)
    (self.m22 / rhs) (self.m32 / rhs) (self.m13 / rhs) (self.m23 / rhs) (self.m33 / rhs)

/-- Row `i`, column `j` element of a `Matrix3` (0-based). -/
def Matrix3.entry (a : Matrix3) (i j : ℕ) : ℚ :=
  match i, j with
  | 0, 0 => a.m11
  | 1, 0 => a.m21
  | 2, 0 => a.m31
  | 0, 1 => a.m12
  | 1, 1 => a.m22
  | 2, 1 => a.m32
  | 0, 2 => a.m13
  | 1, 2 => a.m23
  | 2, 2 => a.m33
  | _, _ => 0

/-- Embeds `struct Matrix4 { m: [f32; 16] }` from src/src/matrix4.rs, one
field per column-major array slot (`m11 = m[0]`, …, `m44 = m[15]`). -/
structure Matrix4 where
  m11 : ℚ
  m21 : ℚ
  m31 : ℚ
  m41 : ℚ
  m12 : ℚ
  m22 : ℚ
  m32 : ℚ
  m42 : ℚ
  m13 : ℚ
  m23 : ℚ
  m33 : ℚ
  m43 : ℚ
  m14 : ℚ
  m24 : ℚ
  m34 : ℚ
  m44 : ℚ
deriving DecidableEq

/-- Embeds `Matrix4::make` (arguments in column-major order). -/
def Matrix4.make (m11 m21 m31 m41 m12 m22 m32 m42 m13 m23 m33 m43 m14 m24 m34 m44 : ℚ) :
    Matrix4 :=
  Matrix4.mk m11 m21 m31 m41 m12 m22 m32 m42 m13 m23 m33 m43 m14 m24 m34 m44

/-- Embeds `matrix4::IDENTITY` (and `Matrix4::new`). -/
def Matrix4.identity : Matrix4 :=
  Matrix4.mk 1 0 0 0 0 1 0 0 0 0 1 0 0 0 0 1

/-- Embeds `Matrix4::set_m11`. -/
def Matrix4.set_m11 (self : Matrix4) (v : ℚ) : Matrix4 :=
  { self with m11 := v }

/-- Embeds `Matrix4::set_m21`. -/
def Matrix4.set_m21 (self : Matrix4) (v : ℚ) : Matrix4 :=
  { self with m21 := v }

/-- Embeds `Matrix4::set_m31`. -/
def Matrix4.set_m31 (self : Matrix4) (v : ℚ) : Matrix4 :=
  { self with m31 := v }

/-- Embeds `Matrix4::set_m41`. -/
def Matrix4.set_m41 (self : Matrix4) (v : ℚ) : Matrix4 :=
  { self with m41 := v }

/-- Embeds `Matrix4::set_m12`. -/
def Matrix4.set_m12 (self : Matrix4) (v : ℚ) : Matrix4 :=
  { self with m12 := v }

/-- Embeds `Matrix4::set_m22`. -/
def Matrix4.set_m22 (self : Matrix4) (v : ℚ) : Matrix4 :=
  { self with m22 := v }

/-- Embeds `Matrix4::set_m32`. -/
def Matrix4.set_m32 (self : Matrix4) (v : ℚ) : Matrix4 :=
  { self with m32 := v }

/-- Embeds `Matrix4::set_m42`. -/
def Matrix4.set_m42 (self : Matrix4) (v : ℚ) : Matrix4 :=
  { self with m42 := v }

/-- Embeds `Matrix4::set_m13`. -/
def Matrix4.set_m13 (self : Matrix4) (v : ℚ) : Matrix4 :=
  { self with m13 := v }

/-- Embeds `Matrix4::set_m23`. -/
def Matrix4.set_m23 (self : Matrix4) (v : ℚ) : Matrix4 :=
  { self with m23 := v }

/-- Embeds `Matrix4::set_m33`. -/
def Matrix4.set_m33 (self : Matrix4) (v : ℚ) : Matrix4 :=
  { self with m33 := v }

/-- Embeds `Matrix4::set_m43`. -/
def Matrix4.set_m43 (self : Matrix4) (v : ℚ) : Matrix4 :=
  { self with m43 := v }

/-- Embeds `Matrix4::set_m14`. -/
def Matrix4.set_m14 (self : Matrix4) (v : ℚ) : Matrix4 :=
  { self with m14 := v }

/-- Embeds `Matrix4::set_m24`. -/
def Matrix4.set_m24 (self : Matrix4) (v : ℚ) : Matrix4 :=
  { self with m24 := v }

/-- Embeds `Matrix4::set_m34`. -/
def Matrix4.set_m34 (self : Matrix4) (v : ℚ) : Matrix4 :=
  { self with m34 := v }

/-- Embeds `Matrix4::set_m44`. -/
def Matrix4.set_m44 (self : Matrix4) (v : ℚ) : Matrix4 :=
  { self with m44 := v }

/-- Embeds `Matrix4::determinant` (cofactor expansion along the first
row, through four `Matrix3::make(..).determinant()` calls exactly as in
the source; the result is `a - b + c - d`). -/
def Matrix4.determinant (self : Matrix4) : ℚ :=
  let a :=
    (Matrix3.make self.m22 self.m23 self.m24 self.m32 self.m33 self.m34 self.m42
      self.m43 self.m44).determinant * self.m11
  let b :=
    (Matrix3.make self.m21 self.m23 self.m24 self.m31 self.m33 self.m34 self.m41
      self.m43 self.m44).determinant * self.m12
  let c :=
    (Matrix3.make self.m21 self.m22 self.m24 self.m31 self.m32 self.m34 self.m41
      self.m42 self.m44).determinant * self.m13
  let d :=
    (Matrix3.make self.m21 self.m22 self.m23 self.m31 self.m32 self.m33 self.m41
      self.m42 self.m43).determinant * self.m14
  a - b + c - d

/-- Embeds `Matrix4::inverse` (in place; returns the `bool` paired with
the updated `self`).  The sixteen `pre_*` cofactor expressions are
transcribed term by term from the source. -/
def Matrix4.inverse (self : Matrix4) : Bool × Matrix4 :=
  let det := self.determinant
  if det = 0 then
    (false, self)
  else
    let inv_det := 1 / det
    let pre_m11 := self.m22 * self.m33 * self.m44
      - self.m22 * self.m43 * self.m34
      - self.m23 * self.m32 * self.m44
      + self.m23 * self.m42 * self.m34
      + self.m24 * self.m32 * self.m43
      - self.m24 * self.m42 * self.m33
    let pre_m21 := -self.m21 * self.m33 * self.m44
      + self.m21 * self.m43 * self.m34
      + self.m23 * self.m31 * self.m44
      - self.m23 * self.m41 * self.m34
      - self.m24 * self.m31 * self.m43
      + self.m24 * self.m41 * self.m33
    let pre_m31 := self.m21 * self.m32 * self.m44
      - self.m21 * self.m42 * self.m34
      - self.m22 * self.m31 * self.m44
      + self.m22 * self.m41 * self.m34
      + self.m24 * self.m31 * self.m42
      - self.m24 * self.m41 * self.m32
    let pre_m41 := -self.m21 * self.m32 * self.m43
      + self.m21 * self.m42 * self.m33
      + self.m22 * self.m31 * self.m43
      - self.m22 * self.m41 * self.m33
      - self.m23 * self.m31 * self.m42
      + self.m23 * self.m41 * self.m32
    let pre_m12 := -self.m12 * self.m33 * self.m44
      + self.m12 * self.m43 * self.m34
      + self.m13 * self.m32 * self.m44
      - self.m13 * self.m42 * self.m34
      - self.m14 * self.m32 * self.m43
      + self.m14 * self.m42 * self.m33
    let pre_m22 := self.m11 * self.m33 * self.m44
      - self.m11 * self.m43 * self.m34
      - self.m13 * self.m31 * self.m44
      + self.m13 * self.m41 * self.m34
      + self.m14 * self.m31 * self.m43
      - self.m14 * self.m41 * self.m33
    let pre_m32 := -self.m11 * self.m32 * self.m44
      + self.m11 * self.m42 * self.m34
      + self.m12 * self.m31 * self.m44
      - self.m12 * self.m41 * self.m34
      - self.m14 * self.m31 * self.m42
      + self.m14 * self.m41 * self.m32
    let pre_m42 := self.m11 * self.m32 * self.m43
      - self.m11 * self.m42 * self.m33
      - self.m12 * self.m31 * self.m43
      + self.m12 * self.m41 * self.m33
      + self.m13 * self.m31 * self.m42
      - self.m13 * self.m41 * self.m32
    let pre_m13 := self.m12 * self.m23 * self.m44
      - self.m12 * self.m43 * self.m24
      - self.m13 * self.m22 * self.m44
      + self.m13 * self.m42 * self.m24
      + self.m14 * self.m22 * self.m43
      - self.m14 * self.m42 * self.m23
    let pre_m23 := -self.m11 * self.m23 * self.m44
      + self.m11 * self.m43 * self.m24
      + self.m13 * self.m21 * self.m44
      - self.m13 * self.m41 * self.m24
      - self.m14 * self.m21 * self.m43
      + self.m14 * self.m41 * self.m23
    let pre_m33 := self.m11 * self.m22 * self.m44
      - self.m11 * self.m42 * self.m24
      - self.m12 * self.m21 * self.m44
      + self.m12 * self.m41 * self.m24
      + self.m14 * self.m21 * self.m42
      - self.m14 * self.m41 * self.m22
    let pre_m43 := -self.m11 * self.m22 * self.m43
      + self.m11 * self.m42 * self.m23
      + self.m12 * self.m21 * self.m43
      - self.m12 * self.m41 * self.m23
      - self.m13 * self.m21 * self.m42
      + self.m13 * self.m41 * self.m22
    let pre_m14 := -self.m12 * self.m23 * self.m34
      + self.m12 * self.m33 * self.m24
      + self.m13 * self.m22 * self.m34
      - self.m13 * self.m32 * self.m24
      - self.m14 * self.m22 * self.m33
      + self.m14 * self.m32 * self.m23
    let pre_m24 := self.m11 * self.m23 * self.m34
      - self.m11 * self.m33 * self.m24
      - self.m13 * self.m21 * self.m34
      + self.m13 * self.m31 * self.m24
      + self.m14 * self.m21 * self.m33
      - self.m14 * self.m31 * self.m23
    let pre_m34 := -self.m11 * self.m22 * self.m34
      + self.m11 * self.m32 * self.m24
      + self.m12 * self.m21 * self.m34
      - self.m12 * self.m31 * self.m24
      - self.m14 * self.m21 * self.m32
      + self.m14 * self.m31 * self.m22
    let pre_m44 := self.m11 * self.m22 * self.m33
      - self.m11 * self.m32 * self.m23
      - self.m12 * self.m21 * self.m33
      + self.m12 * self.m31 * self.m23
      + self.m13 * self.m21 * self.m32
      - self.m13 * self.m31 * self.m22
    (true,
      (((((((((((((((
        (self.set_m11 (pre_m11 * inv_det)).set_m21 (pre_m21 * inv_det)).set_m31
        (pre_m31 * inv_det)).set_m41 (pre_m41 * inv_det)).set_m12
        (pre_m12 * inv_det)).set_m22 (pre_m22 * inv_det)).set_m32
        (pre_m32 * inv_det)).set_m42 (pre_m42 * inv_det)).set_m13
        (pre_m13 * inv_det)).set_m23 (pre_m23 * inv_det)).set_m33
        (pre_m33 * inv_det)).set_m43 (pre_m43 * inv_det)).set_m14
        (pre_m14 * inv_det)).set_m24 (pre_m24 * inv_det)).set_m34
        (pre_m34 * inv_det)).set_m44 (pre_m44 * inv_det)))

/-- Embeds `impl Mul<Matrix4> for Matrix4` (matrix-by-matrix product). -/
def Matrix4.mul_matrix (self rhs : Matrix4) : Matrix4 :=
  let m11 := self.m11 * rhs.m11 + self.m12 * rhs.m21 + self.m13 * rhs.m31
    + self.m14 * rhs.m41
  let m21 := self.m21 * rhs.m11 + self.m22 * rhs.m21 + self.m23 * rhs.m31
    + self.m24 * rhs.m41
  let m31 := self.m31 * rhs.m11 + self.m32 * rhs.m21 + self.m33 * rhs.m31
    + self.m34 * rhs.m41
  let m41 := self.m41 * rhs.m11 + self.m42 * rhs.m21 + self.m43 * rhs.m31
    + self.m44 * rhs.m41
  let m12 := self.m11 * rhs.m12 + self.m12 * rhs.m22 + self.m13 * rhs.m32
    + self.m14 * rhs.m42
  let m22 := self.m21 * rhs.m12 + self.m22 * rhs.m22 + self.m23 * rhs.m32
    + self.m24 * rhs.m42
  let m32 := self.m31 * rhs.m12 + self.m32 * rhs.m22 + self.m33 * rhs.m32
    + self.m34 * rhs.m42
  let m42 := self.m41 * rhs.m12 + self.m42 * rhs.m22 + self.m43 * rhs.m32
    + self.m44 * rhs.m42
  let m13 := self.m11 * rhs.m13 + self.m12 * rhs.m23 + self.m13 * rhs.m33
    + self.m14 * rhs.m43
  let m23 := self.m21 * rhs.m13 + self.m22 * rhs.m23 + self.m23 * rhs.m33
    + self.m24 * rhs.m43
  let m33 := self.m31 * rhs.m13 + self.m32 * rhs.m23 + self.m33 * rhs.m33
    + self.m34 * rhs.m43
  let m43 := self.m41 * rhs.m13 + self.m42 * rhs.m23 + self.m43 * rhs.m33
    + self.m44 * rhs.m43
  let m14 := self.m11 * rhs.m14 + self.m12 * rhs.m24 + self.m13 * rhs.m34
    + self.m14 * rhs.m44
  let m24 := self.m21 * rhs.m14 + self.m22 * rhs.m24 + self.m23 * rhs.m34
    + self.m24 * rhs.m44
  let m34 := self.m31 * rhs.m14 + self.m32 * rhs.m24 + self.m33 * rhs.m34
    + self.m34 * rhs.m44
  let m44 := self.m41 * rhs.m14 + self.m42 * rhs.m24 + self.m43 * rhs.m34
    + self.m44 * rhs.m44
  Matrix4.make m11 m21 m31 m41 m12 m22 m32 m42 m13 m23 m33 m43 m14 m24 m34 m44

/-- Embeds `impl Mul<f32> for Matrix4` (componentwise, a loop over the
sixteen array slots). -/
def Matrix4.mul_scalar (self : Matrix4) (rhs : ℚ) : Matrix4 :=
  Matrix4.mk (self.m11 * rhs) (self.m21 * rhs) (self.m31 * rhs) (self.m41 * rhs)
    (self.m12 * rhs) (self.m22 * rhs) (self.m32 * rhs) (self.m42 * rhs)
    (self.m13 * rhs) (self.m23 * rhs) (self.m33 * rhs) (self.m43 * rhs)
    (self.m14 * rhs) (self.m24 * rhs) (self.m34 * rhs) (self.m44 * rhs)

/-- Embeds `impl Add<f32> for Matrix4` (componentwise). -/
def Matrix4.add_scalar (self : Matrix4) (rhs : ℚ) : Matrix4 :=
  Matrix4.mk (self.m11 + rhs) (self.m21 + rhs) (self.m31 + rhs) (self.m41 + rhs)
    (self.m12 + rhs) (self.m22 + rhs) (self.m32 + rhs) (self.m42 + rhs)
    (self.m13 + rhs) (self.m23 + rhs) (self.m33 + rhs) (self.m43 + rhs)
    (self.m14 + rhs) (self.m24 + rhs) (self.m34 + rhs) (self.m44 + rhs)

/-- Embeds `impl Add<Matrix4> for Matrix4` (componentwise). -/
def Matrix4.add_matrix (self rhs : Matrix4) : Matrix4 :=
  Matrix4.mk (self.m11 + rhs.m11) (self.m21 + rhs.m21) (self.m31 + rhs.m31)
    (self.m41 + rhs.m41) (self.m12 + rhs.m12) (self.m22 + rhs.m22)
    (self.m32 + rhs.m32) (self.m42 + rhs.m42) (self.m13 + rhs.m13)
    (self.m23 + rhs.m23) (self.m33 + rhs.m33) (self.m43 + rhs.m43)
    (self.m14 + rhs.m14) (self.m24 + rhs.m24) (self.m34 + rhs.m34)
    (self.m44 + rhs.m44)

/-- Embeds `impl Sub<f32> for Matrix4` (componentwise). -/
def Matrix4.sub_scalar (self : Matrix4) (rhs : ℚ) : Matrix4 :=
  Matrix4.mk (self.m11 - rhs) (self.m21 - rhs) (self.m31 - rhs) (self.m41 - rhs)
    (self.m12 - rhs) (self.m22 - rhs) (self.m32 - rhs) (self.m42 - rhs)
    (self.m13 - rhs) (self.m23 - rhs) (self.m33 - rhs) (self.m43 - rhs)
    (self.m14 - rhs) (self.m24 - rhs) (self.m34 - rhs) (self.m44 - rhs)

/-- Embeds `impl Sub<Matrix4> for Matrix4` (componentwise). -/
def Matrix4.sub_matrix (self rhs : Matrix4) : Matrix4 :=
  Matrix4.mk (self.m11 - rhs.m11) (self.m21 - rhs.m21) (self.m31 - rhs.m31)
    (self.m41 - rhs.m41) (self.m12 - rhs.m12) (self.m22 - rhs.m22)
    (self.m32 - rhs.m32) (self.m42 - rhs.m42) (self.m13 - rhs.m13)
    (self.m23 - rhs.m23) (self.m33 - rhs.m33) (self.m43 - rhs.m43)
    (self.m14 - rhs.m14) (self.m24 - rhs.m24) (self.m34 - rhs.m34)
    (self.m44 - rhs.m44)

/-- Embeds `impl Div<f32> for Matrix4` (componentwise). -/
def Matrix4.div_scalar (self : Matrix4) (rhs : ℚ) : Matrix4 :=
  Matrix4.mk (self.m11 / rhs) (self.m21 / rhs) (self.m31 / rhs) (self.m41 / rhs)
    (self.m12 / rhs) (self.m22 / rhs) (self.m32 / rhs) (self.m42 / rhs)
    (self.m13 / rhs) (self.m23 / rhs) (self.m33 / rhs) (self.m43 / rhs)
    (self.m14 / rhs) (self.m24 / rhs) (self.m34 / rhs) (self.m44 / rhs)

/-- Embeds `Matrix4::perspective`.  The `f32` primitives `to_radians`,
`sin` and `cos` are passed in as functions; the sequence of setter
calls on the fresh identity matrix is preserved verbatim, including the
two consecutive `set_m43` calls of the source. -/
def Matrix4.perspective (toRadians sin cos : ℚ → ℚ)
    (fov aspect_ratio near far : ℚ) : Matrix4 :=
  let radians := toRadians (fov / 2)
  let sine := sin radians
  let cotangent := cos radians / sine
  let depth := far - near
  let mat := Matrix4.identity
  let mat := mat.set_m11 (cotangent / aspect_ratio)
  let mat := mat.set_m22 cotangent
  let mat := mat.set_m33 (-(far + near) / depth)
  let mat := mat.set_m43 (-1)
  let mat := mat.set_m43 (-2 * near * far / depth)
  let mat := mat.set_m44 0
  mat

/-- Embeds `Matrix4::rotate_y` (`sin`/`cos` passed in as functions; the
two consecutive `set_m31` calls of the source are preserved verbatim). -/
def Matrix4.rotate_y (sin cos : ℚ → ℚ) (angle : ℚ) : Matrix4 :=
  let mat := Matrix4.identity
  let mat := mat.set_m11 (cos angle)
  let mat := mat.set_m31 (-(sin angle))
  let mat := mat.set_m31 (sin angle)
  let mat := mat.set_m33 (cos angle)
  mat

/-- Row `i`, column `j` element of a `Matrix4` (0-based). -/
def Matrix4.entry (a : Matrix4) (i j : ℕ) : ℚ :=
  match i, j with
  | 0, 0 => a.m11
  | 1, 0 => a.m21
  | 2, 0 => a.m31
  | 3, 0 => a.m41
  | 0, 1 => a.m12
  | 1, 1 => a.m22
  | 2, 1 => a.m32
  | 3, 1 => a.m42
  | 0, 2 => a.m13
  | 1, 2 => a.m23
  | 2, 2 => a.m33
  | 3, 2 => a.m43
  | 0, 3 => a.m14
  | 1, 3 => a.m24
  | 2, 3 => a.m34
  | 3, 3 => a.m44
  | _, _ => 0

/-- Modelled from the spec (glossary, "Adjugate method"): the transpose of
the cofactor matrix of a 2x2 matrix.  This definition is written from the
mathematical description in the spec, independently of the source, so
that `inverse` can be compared against it. -/
def Matrix2.adjugate (a : Matrix2) : Matrix2 :=
  Matrix2.mk a.m22 (-a.m21) (-a.m12) a.m11

/-- Modelled from the spec (glossary, "Adjugate method"): the transpose of
the cofactor matrix of a 3x3 matrix — entry (i, j) is `(-1)^(i+j)` times
the determinant of the minor obtained by deleting row j and column i.
Written from the mathematical description, independently of the source. -/
def Matrix3.adjugate (a : Matrix3) : Matrix3 :=
  Matrix3.mk
    ((Matrix2.make a.m22 a.m32 a.m23 a.m33).determinant)
    (-(Matrix2.make a.m21 a.m31 a.m23 a.m33).determinant)
    ((Matrix2.make a.m21 a.m31 a.m22 a.m32).determinant)
    (-(Matrix2.make a.m12 a.m32 a.m13 a.m33).determinant)
    ((Matrix2.make a.m11 a.m31 a.m13 a.m33).determinant)
    (-(Matrix2.make a.m11 a.m31 a.m12 a.m32).determinant)
    ((Matrix2.make a.m12 a.m22 a.m13 a.m23).determinant)
    (-(Matrix2.make a.m11 a.m21 a.m13 a.m23).determinant)
    ((Matrix2.make a.m11 a.m21 a.m12 a.m22).determinant)

/-- Modelled from the spec (glossary, "Adjugate method"): the transpose of
the cofactor matrix of a 4x4 matrix — entry (i, j) is `(-1)^(i+j)` times
the determinant of the minor obtained by deleting row j and column i.
Written from the mathematical description, independently of the source. -/
def Matrix4.adjugate (a : Matrix4) : Matrix4 :=
  Matrix4.mk
    ((Matrix3.make a.m22 a.m32 a.m42 a.m23 a.m33 a.m43 a.m24 a.m34 a.m44).determinant)
    (-(Matrix3.make a.m21 a.m31 a.m41 a.m23 a.m33 a.m43 a.m24 a.m34 a.m44).determinant)
    ((Matrix3.make a.m21 a.m31 a.m41 a.m22 a.m32 a.m42 a.m24 a.m34 a.m44).determinant)
    (-(Matrix3.make a.m21 a.m31 a.m41 a.m22 a.m32 a.m42 a.m23 a.m33 a.m43).determinant)
    (-(Matrix3.make a.m12 a.m32 a.m42 a.m13 a.m33 a.m43 a.m14 a.m34 a.m44).determinant)
    ((Matrix3.make a.m11 a.m31 a.m41 a.m13 a.m33 a.m43 a.m14 a.m34 a.m44).determinant)
    (-(Matrix3.make a.m11 a.m31 a.m41 a.m12 a.m32 a.m42 a.m14 a.m34 a.m44).determinant)
    ((Matrix3.make a.m11 a.m31 a.m41 a.m12 a.m32 a.m42 a.m13 a.m33 a.m43).determinant)
    ((Matrix3.make a.m12 a.m22 a.m42 a.m13 a.m23 a.m43 a.m14 a.m24 a.m44).determinant)
    (-(Matrix3.make a.m11 a.m21 a.m41 a.m13 a.m23 a.m43 a.m14 a.m24 a.m44).determinant)
    ((Matrix3.make a.m11 a.m21 a.m41 a.m12 a.m22 a.m42 a.m14 a.m24 a.m44).determinant)
    (-(Matrix3.make a.m11 a.m21 a.m41 a.m12 a.m22 a.m42 a.m13 a.m23 a.m43).determinant)
    (-(Matrix3.make a.m12 a.m22 a.m32 a.m13 a.m23 a.m33 a.m14 a.m24 a.m34).determinant)
    ((Matrix3.make a.m11 a.m21 a.m31 a.m13 a.m23 a.m33 a.m14 a.m24 a.m34).determinant)
    (-(Matrix3.make a.m11 a.m21 a.m31 a.m12 a.m22 a.m32 a.m14 a.m24 a.m34).determinant)
    ((Matrix3.make a.m11 a.m21 a.m31 a.m12 a.m22 a.m32 a.m13 a.m23 a.m33).determinant)

/-! ### A NaN-aware model of `f32` values

`FQ` refines the plain `ℚ` model with the IEEE-754 NaN value: `FQ.nan`
models any `f32` NaN bit pattern and `FQ.fin q` models a numeric `f32`
value of exact rational value `q` (infinities and the sign of zero are
not distinguished; the sign of zero never affects IEEE `==`, which is the
only comparison used below).  Arithmetic propagates NaN exactly as IEEE
arithmetic does on these values, and `FQ.beq` is IEEE `==`: false
whenever either side is NaN. -/

inductive FQ where
  | nan : FQ
  | fin : ℚ → FQ
deriving DecidableEq

/-- Multiplication of NaN-aware `f32` values (NaN-propagating). -/
def FQ.mul : FQ → FQ → FQ
  | FQ.fin a, FQ.fin b => FQ.fin (a * b)
  | _, _ => FQ.nan

/-- Subtraction of NaN-aware `f32` values (NaN-propagating). -/
def FQ.sub : FQ → FQ → FQ
  | FQ.fin a, FQ.fin b => FQ.fin (a - b)
  | _, _ => FQ.nan

/-- Negation of NaN-aware `f32` values. -/
def FQ.neg : FQ → FQ
  | FQ.fin a => FQ.fin (-a)
  | FQ.nan => FQ.nan

/-- Models the IEEE-754 `f32` operator `==`: any comparison with NaN is
false. -/
def FQ.beq : FQ → FQ → Bool
  | FQ.fin a, FQ.fin b => decide (a = b)
  | _, _ => false

/-- The `Vector3` data model over NaN-aware components. -/
structure Vector3F where
  x : FQ
  y : FQ
  z : FQ
deriving DecidableEq

/-- Embeds `Vector3::cross` over NaN-aware components (the same three
formulas as `Vector3.cross`, with IEEE NaN propagation). -/
def Vector3F.cross (a b : Vector3F) : Vector3F :=
  Vector3F.mk
    (FQ.sub (FQ.mul a.y b.z) (FQ.mul a.z b.y))
    (FQ.sub (FQ.mul a.z b.x) (FQ.mul a.x b.z))
    (FQ.sub (FQ.mul a.x b.y) (FQ.mul a.y b.x))

/-- Embeds `impl ops::Neg for Vector3` over NaN-aware components. -/
def Vector3F.neg (self : Vector3F) : Vector3F :=
  Vector3F.mk (FQ.neg self.x) (FQ.neg self.y) (FQ.neg self.z)

/-- Embeds `impl cmp::PartialEq for Vector3`
(`self.x == rhs.x && self.y == rhs.y && self.z == rhs.z`) over NaN-aware
components: componentwise IEEE `==`. -/
def Vector3F.beq (self rhs : Vector3F) : Bool :=
  FQ.beq self.x rhs.x && FQ.beq self.y rhs.y && FQ.beq self.z rhs.z

/-! ### A model of `f32` values for the `==` comparison only

`F32V` models the `f32` values relevant to the library's equality
operators, including the negative-zero bit pattern: `F32V.nan` is any NaN,
`F32V.negZero` is `-0.0`, and `F32V.num q` is any other numeric value of
exact rational value `q` (so `F32V.num 0` is `+0.0`).  `F32V.beq` is the
IEEE-754 `f32` operator `==` on these values: NaN compares unequal to
everything (itself included) and `-0.0 == +0.0` is true. -/

inductive F32V where
  | nan : F32V
  | negZero : F32V
  | num : ℚ → F32V
deriving DecidableEq

/-- Models the IEEE-754 `f32` operator `==` including the signed zeros. -/
def F32V.beq : F32V → F32V → Bool
  | F32V.nan, _ => false
  | _, F32V.nan => false
  | F32V.negZero, F32V.negZero => true
  | F32V.negZero, F32V.num q => decide (q = 0)
  | F32V.num q, F32V.negZero => decide (q = 0)
  | F32V.num p, F32V.num q => decide (p = q)

/-- The `Vector2` data model over `F32V` components. -/
structure Vector2F where
  x : F32V
  y : F32V
deriving DecidableEq

/-- Embeds `impl cmp::PartialEq for Vector2` (a loop over the two
components returning false on the first componentwise `!=`): the
conjunction of the componentwise IEEE `==` comparisons. -/
def Vector2F.beq (self rhs : Vector2F) : Bool :=
  F32V.beq self.x rhs.x && F32V.beq self.y rhs.y

/-- The `Matrix3` data model over `F32V` components (one field per
column-major array slot, as in `Matrix3`). -/
structure Matrix3F where
  m11 : F32V
  m21 : F32V
  m31 : F32V
  m12 : F32V
  m22 : F32V
  m32 : F32V
  m13 : F32V
  m23 : F32V
  m33 : F32V
deriving DecidableEq

/-- The nine elements of a `Matrix3F` in array order. -/
def Matrix3F.elems (a : Matrix3F) : List F32V :=
  [a.m11, a.m21, a.m31, a.m12, a.m22, a.m32, a.m13, a.m23, a.m33]

/-- Embeds `impl cmp::PartialEq for Matrix3` (a loop over the nine array
slots returning false on the first elementwise `!=`): the conjunction of
the elementwise IEEE `==` comparisons, in array order. -/
def Matrix3F.beq (self rhs : Matrix3F) : Bool :=
  F32V.beq self.m11 rhs.m11 && F32V.beq self.m21 rhs.m21 && F32V.beq self.m31 rhs.m31 &&
  F32V.beq self.m12 rhs.m12 && F32V.beq self.m22 rhs.m22 && F32V.beq self.m32 rhs.m32 &&
  F32V.beq self.m13 rhs.m13 && F32V.beq self.m23 rhs.m23 && F32V.beq self.m33 rhs.m33

/-! ### Integer utilities -/

/-- Embeds `next_power_of_two` (src/src/common.rs; duplicated verbatim in
src/src/math.rs).  The Rust `i32` is modelled as `ℤ`: for the inputs
considered by the claims (`1 ≤ x < 2³⁰`) every intermediate value stays
inside the non-negative `i32` range, where `ℤ` with arithmetic shift
(`>>>`) and bitwise or coincides exactly with `i32`. -/
def next_power_of_two (x : ℤ) : ℤ :=
  let r := x
  let r := Int.lor r (r >>> (1 : ℤ))
  let r := Int.lor r (r >>> (2 : ℤ))
  let r := Int.lor r (r >>> (4 : ℤ))
  let r := Int.lor r (r >>> (8 : ℤ))
  let r := Int.lor r (r >>> (16 : ℤ))
  r + 1

/-- The bit-smearing cascade of `next_power_of_two`, on `ℕ` (proof
helper: on the non-negative inputs considered, the `ℤ` computation
restricts to this one). -/
def smearNat (n : ℕ) : ℕ :=
  let r := n
  let r := r ||| (r >>> 1)
  let r := r ||| (r >>> 2)
  let r := r ||| (r >>> 4)
  let r := r ||| (r >>> 8)
  let r := r ||| (r >>> 16)
  r

/-! ## Helper lemmas for the bit-smearing cascade -/

/-- One or-shift step widens the window of source bits that can reach a
given position: if `a`'s bit `j` sees the source bits `j .. j + m`, then
`a ||| (a >>> k)` with `k = m + 1` sees the source bits `j .. j + m + k`. -/
theorem step_spread (n a : ℕ) (m k : ℕ) (hk : k = m + 1)
    (H : ∀ j, a.testBit j = true ↔ ∃ s, s ≤ m ∧ n.testBit (j + s) = true) (j : ℕ) :
    (a ||| (a >>> k)).testBit j = true ↔ ∃ s, s ≤ m + k ∧ n.testBit (j + s) = true := by
  rw [Nat.testBit_or, Nat.testBit_shiftRight, Bool.or_eq_true, H j, H (k + j)]
  constructor
  · rintro (⟨s, hs, h⟩ | ⟨s, hs, h⟩)
    · exact ⟨s, by omega, h⟩
    · refine ⟨k + s, by omega, ?_⟩
      rw [show j + (k + s) = k + j + s from by omega]
      exact h
  · rintro ⟨s, hs, h⟩
    by_cases hsm : s ≤ m
    · exact Or.inl ⟨s, hsm, h⟩
    · refine Or.inr ⟨s - k, by omega, ?_⟩
      rw [show k + j + (s - k) = j + s from by omega]
      exact h

/-- Bit `j` of the full five-step smear is set iff some source bit in the
window `j .. j + 31` is set. -/
theorem smearNat_testBit (n : ℕ) (j : ℕ) :
    (smearNat n).testBit j = true ↔ ∃ s, s ≤ 31 ∧ n.testBit (j + s) = true := by
  have h0 : ∀ i, n.testBit i = true ↔ ∃ s, s ≤ 0 ∧ n.testBit (i + s) = true := by
    intro i
    constructor
    · intro h
      exact ⟨0, le_rfl, by simpa using h⟩
    · rintro ⟨s, hs, h⟩
      have hz : s = 0 := by omega
      subst hz
      simpa using h
  have h1 := step_spread n n 0 1 rfl h0
  have h2 := step_spread n _ 1 2 rfl h1
  have h3 := step_spread n _ 3 4 rfl h2
  have h4 := step_spread n _ 7 8 rfl h3
  have h5 := step_spread n _ 15 16 rfl h4
  simpa [smearNat] using h5 j

/-- Every positive natural number has its leading bit set at position
`Nat.log 2 n`. -/
theorem testBit_log_self (n : ℕ) (hn : n ≠ 0) : n.testBit (Nat.log 2 n) = true := by
  rw [Nat.testBit_to_div_mod]
  have h1 : 2 ^ Nat.log 2 n ≤ n := Nat.pow_log_le_self 2 hn
  have h2 : n < 2 ^ (Nat.log 2 n + 1) := Nat.lt_pow_succ_log_self (by norm_num) n
  have hd : n / 2 ^ Nat.log 2 n = 1 := by
    apply Nat.div_eq_of_lt_le
    · simpa using h1
    · calc n < 2 ^ (Nat.log 2 n + 1) := h2
        _ = (1 + 1) * 2 ^ Nat.log 2 n := by ring
  rw [hd]
  decide

/-- On `1 ≤ n < 2³⁰` the smear fills every bit at or below the leading
bit: the result is `2 ^ (Nat.log 2 n + 1) - 1`. -/
theorem smearNat_eq (n : ℕ) (h1 : 1 ≤ n) (h2 : n < 2 ^ 30) :
    smearNat n = 2 ^ (Nat.log 2 n + 1) - 1 := by
  have hL : Nat.log 2 n ≤ 29 := by
    by_contra hc
    push_neg at hc
    have ha := Nat.pow_log_le_self 2 (by omega : n ≠ 0)
    have hb : (2:ℕ) ^ 30 ≤ 2 ^ Nat.log 2 n := Nat.pow_le_pow_right (by norm_num) (by omega)
    omega
  apply Nat.eq_of_testBit_eq
  intro i
  rw [Nat.testBit_two_pow_sub_one]
  by_cases hi : i < Nat.log 2 n + 1
  · have hex : ∃ s, s ≤ 31 ∧ n.testBit (i + s) = true := by
      refine ⟨Nat.log 2 n - i, by omega, ?_⟩
      rw [show i + (Nat.log 2 n - i) = Nat.log 2 n from by omega]
      exact testBit_log_self n (by omega)
    rw [(smearNat_testBit n i).2 hex]
    simp [hi]
  · have hfalse : (smearNat n).testBit i = false := by
      rw [← Bool.not_eq_true, smearNat_testBit]
      rintro ⟨s, hs, hbit⟩
      have hlt : n < 2 ^ (i + s) := by
        calc n < 2 ^ (Nat.log 2 n + 1) := Nat.lt_pow_succ_log_self (by norm_num) n
          _ ≤ 2 ^ (i + s) := Nat.pow_le_pow_right (by norm_num) (by omega)
      rw [Nat.testBit_lt_two_pow hlt] at hbit
      exact Bool.false_ne_true hbit
    rw [hfalse]
    simp [hi]

/-! ## Claims -/

/-- C1: for every matrix size (Matrix2, Matrix3, Matrix4), `inverse` on a
matrix with `determinant == 0.0` (exact equality) returns false and
leaves every element unchanged; on a non-zero determinant it returns true
and overwrites the matrix with its adjugate scaled by `1/determinant`. -/
theorem inverse_zero_det_or_adjugate :
    (∀ a : Matrix2,
       (a.determinant = 0 → a.inverse = (false, a)) ∧
       (a.determinant ≠ 0 →
         a.inverse = (true, a.adjugate.mul_scalar (1 / a.determinant)))) ∧
    (∀ a : Matrix3,
       (a.determinant = 0 → a.inverse = (false, a)) ∧
       (a.determinant ≠ 0 →
         a.inverse = (true, a.adjugate.mul_scalar (1 / a.determinant)))) ∧
    (∀ a : Matrix4,
       (a.determinant = 0 → a.inverse = (false, a)) ∧
       (a.determinant ≠ 0 →
         a.inverse = (true, a.adjugate.mul_scalar (1 / a.determinant)))) := by
  refine ⟨fun a => ⟨fun h => ?_, fun h => ?_⟩,
          fun a => ⟨fun h => ?_, fun h => ?_⟩,
          fun a => ⟨fun h => ?_, fun h => ?_⟩⟩
  · rw [Matrix2.inverse, if_pos h]
  · rw [Matrix2.inverse, if_neg h]
    simp only [Matrix2.adjugate, Matrix2.mul_scalar, Matrix2.make, Matrix2.set_m11,
      Matrix2.set_m21, Matrix2.set_m12, Matrix2.set_m22, Prod.mk.injEq,
      Matrix2.mk.injEq, true_and]
  · rw [Matrix3.inverse, if_pos h]
  · rw [Matrix3.inverse, if_neg h]
    simp only [Matrix3.adjugate, Matrix3.mul_scalar, Matrix3.make, Matrix2.make,
      Matrix2.determinant, Matrix3.set_m11, Matrix3.set_m21, Matrix3.set_m31,
      Matrix3.set_m12, Matrix3.set_m22, Matrix3.set_m32, Matrix3.set_m13,
      Matrix3.set_m23, Matrix3.set_m33, Prod.mk.injEq, Matrix3.mk.injEq, true_and]
    all_goals (repeat' apply And.intro)
    all_goals ring
  · rw [Matrix4.inverse, if_pos h]
  · rw [Matrix4.inverse, if_neg h]
    simp only [Matrix4.adjugate, Matrix4.mul_scalar, Matrix4.make, Matrix3.make,
      Matrix3.determinant, Matrix4.set_m11, Matrix4.set_m21, Matrix4.set_m31,
      Matrix4.set_m41, Matrix4.set_m12, Matrix4.set_m22, Matrix4.set_m32,
      Matrix4.set_m42, Matrix4.set_m13, Matrix4.set_m23, Matrix4.set_m33,
      Matrix4.set_m43, Matrix4.set_m14, Matrix4.set_m24, Matrix4.set_m34,
      Matrix4.set_m44, Prod.mk.injEq, Matrix4.mk.injEq, true_and]
    all_goals (repeat' apply And.intro)
    all_goals ring

/-- Witness for C1: both branches of each of the three statements applied
at explicit matrices (singular all-ones matrices, and the invertible
matrices of the source doc-tests). -/
theorem inverse_zero_det_or_adjugate_witness :
    (Matrix2.make 1 1 1 1).inverse = (false, Matrix2.make 1 1 1 1) ∧
    (Matrix2.make 1 2 3 4).inverse
      = (true, (Matrix2.make 1 2 3 4).adjugate.mul_scalar
          (1 / (Matrix2.make 1 2 3 4).determinant)) ∧
    (Matrix3.make 1 1 1 1 1 1 1 1 1).inverse = (false, Matrix3.make 1 1 1 1 1 1 1 1 1) ∧
    (Matrix3.make 1 0 5 2 1 6 3 4 0).inverse
      = (true, (Matrix3.make 1 0 5 2 1 6 3 4 0).adjugate.mul_scalar
          (1 / (Matrix3.make 1 0 5 2 1 6 3 4 0).determinant)) ∧
    (Matrix4.make 1 1 1 1 1 1 1 1 1 1 1 1 1 1 1 1).inverse
      = (false, Matrix4.make 1 1 1 1 1 1 1 1 1 1 1 1 1 1 1 1) ∧
    (Matrix4.make 1 0 2 2 0 2 1 0 0 1 0 1 1 2 1 4).inverse
      = (true, (Matrix4.make 1 0 2 2 0 2 1 0 0 1 0 1 1 2 1 4).adjugate.mul_scalar
          (1 / (Matrix4.make 1 0 2 2 0 2 1 0 0 1 0 1 1 2 1 4).determinant)) :=
  ⟨(inverse_zero_det_or_adjugate.1 _).1
     (by norm_num [Matrix2.determinant, Matrix2.make]),
   (inverse_zero_det_or_adjugate.1 _).2
     (by norm_num [Matrix2.determinant, Matrix2.make]),
   (inverse_zero_det_or_adjugate.2.1 _).1
     (by norm_num [Matrix3.determinant, Matrix3.make]),
   (inverse_zero_det_or_adjugate.2.1 _).2
     (by norm_num [Matrix3.determinant, Matrix3.make]),
   (inverse_zero_det_or_adjugate.2.2 _).1
     (by norm_num [Matrix4.determinant, Matrix3.determinant, Matrix3.make, Matrix4.make]),
   (inverse_zero_det_or_adjugate.2.2 _).2
     (by norm_num [Matrix4.determinant, Matrix3.determinant, Matrix3.make, Matrix4.make])⟩

/-- C2: `Matrix3::make(1,0,5,2,1,6,3,4,0).inverse()` (column-major
arguments) returns true and the matrix becomes exactly
`Matrix3::make(-24,20,-5,18,-15,4,5,-4,1)`. -/
theorem matrix3_inverse_doc_example :
    (Matrix3.make 1 0 5 2 1 6 3 4 0).inverse
      = (true, Matrix3.make (-24) 20 (-5) 18 (-15) 4 5 (-4) 1) := by
  norm_num [Matrix3.inverse, Matrix3.determinant, Matrix3.make, Matrix2.make,
    Matrix2.determinant, Matrix3.set_m11, Matrix3.set_m21, Matrix3.set_m31,
    Matrix3.set_m12, Matrix3.set_m22, Matrix3.set_m32, Matrix3.set_m13,
    Matrix3.set_m23, Matrix3.set_m33]

set_option maxHeartbeats 1600000 in
/-- C3: for every matrix size, the matrix-by-matrix product is true
matrix multiplication — entry (i, j) of `a * b` is the sum over `k` of
`a`'s (i, k) entry times `b`'s (k, j) entry — while matrix-by-scalar
multiplication, scalar add/sub/div, and matrix-by-matrix add/sub are all
componentwise. -/
theorem mul_matrix_true_product_scalar_ops_componentwise :
    (∀ (a b : Matrix2) (i j : Fin 2),
       (a.mul_matrix b).entry i.val j.val
         = ∑ k : Fin 2, a.entry i.val k.val * b.entry k.val j.val) ∧
    (∀ (a b : Matrix3) (i j : Fin 3),
       (a.mul_matrix b).entry i.val j.val
         = ∑ k : Fin 3, a.entry i.val k.val * b.entry k.val j.val) ∧
    (∀ (a b : Matrix4) (i j : Fin 4),
       (a.mul_matrix b).entry i.val j.val
         = ∑ k : Fin 4, a.entry i.val k.val * b.entry k.val j.val) ∧
    (∀ (a : Matrix2) (s : ℚ) (i j : Fin 2),
       (a.mul_scalar s).entry i.val j.val = a.entry i.val j.val * s ∧
       (a.add_scalar s).entry i.val j.val = a.entry i.val j.val + s ∧
       (a.sub_scalar s).entry i.val j.val = a.entry i.val j.val - s ∧
       (a.div_scalar s).entry i.val j.val = a.entry i.val j.val / s) ∧
    (∀ (a : Matrix3) (s : ℚ) (i j : Fin 3),
       (a.mul_scalar s).entry i.val j.val = a.entry i.val j.val * s ∧
       (a.add_scalar s).entry i.val j.val = a.entry i.val j.val + s ∧
       (a.sub_scalar s).entry i.val j.val = a.entry i.val j.val - s ∧
       (a.div_scalar s).entry i.val j.val = a.entry i.val j.val / s) ∧
    (∀ (a : Matrix4) (s : ℚ) (i j : Fin 4),
       (a.mul_scalar s).entry i.val j.val = a.entry i.val j.val * s ∧
       (a.add_scalar s).entry i.val j.val = a.entry i.val j.val + s ∧
       (a.sub_scalar s).entry i.val j.val = a.entry i.val j.val - s ∧
       (a.div_scalar s).entry i.val j.val = a.entry i.val j.val / s) ∧
    (∀ (a b : Matrix2) (i j : Fin 2),
       (a.add_matrix b).entry i.val j.val = a.entry i.val j.val + b.entry i.val j.val ∧
       (a.sub_matrix b).entry i.val j.val = a.entry i.val j.val - b.entry i.val j.val) ∧
    (∀ (a b : Matrix3) (i j : Fin 3),
       (a.add_matrix b).entry i.val j.val = a.entry i.val j.val + b.entry i.val j.val ∧
       (a.sub_matrix b).entry i.val j.val = a.entry i.val j.val - b.entry i.val j.val) ∧
    (∀ (a b : Matrix4) (i j : Fin 4),
       (a.add_matrix b).entry i.val j.val = a.entry i.val j.val + b.entry i.val j.val ∧
       (a.sub_matrix b).entry i.val j.val = a.entry i.val j.val - b.entry i.val j.val) := by
  refine ⟨?_, ?_, ?_, ?_, ?_, ?_, ?_, ?_, ?_⟩
  · intro a b i j
    fin_cases i <;> fin_cases j <;>
      simp [Fin.sum_univ_two, Matrix2.entry, Matrix2.mul_matrix, Matrix2.make]
  · intro a b i j
    fin_cases i <;> fin_cases j <;>
      simp [Fin.sum_univ_three, Matrix3.entry, Matrix3.mul_matrix, Matrix3.make]
  · intro a b i j
    fin_cases i <;> fin_cases j <;>
      simp [Fin.sum_univ_four, Matrix4.entry, Matrix4.mul_matrix, Matrix4.make]
  · intro a s i j
    fin_cases i <;> fin_cases j <;>
      simp [Matrix2.entry, Matrix2.mul_scalar, Matrix2.add_scalar, Matrix2.sub_scalar,
        Matrix2.div_scalar]
  · intro a s i j
    fin_cases i <;> fin_cases j <;>
      simp [Matrix3.entry, Matrix3.mul_scalar, Matrix3.add_scalar, Matrix3.sub_scalar,
        Matrix3.div_scalar]
  · intro a s i j
    fin_cases i <;> fin_cases j <;>
      simp [Matrix4.entry, Matrix4.mul_scalar, Matrix4.add_scalar, Matrix4.sub_scalar,
        Matrix4.div_scalar]
  · intro a b i j
    fin_cases i <;> fin_cases j <;>
      simp [Matrix2.entry, Matrix2.add_matrix, Matrix2.sub_matrix]
  · intro a b i j
    fin_cases i <;> fin_cases j <;>
      simp [Matrix3.entry, Matrix3.add_matrix, Matrix3.sub_matrix]
  · intro a b i j
    fin_cases i <;> fin_cases j <;>
      simp [Matrix4.entry, Matrix4.add_matrix, Matrix4.sub_matrix]

/-- C4: for every vector size, the in-place normalize operation divides
each component by the pre-normalization magnitude and returns that
magnitude, except that when the magnitude is at most `f32::EPSILON` it
returns 0 and leaves every component unchanged.  Stated for every choice
of the `sqrt` primitive used to compute the magnitude. -/
theorem normalize_magnitude_or_epsilon_guard :
    (∀ (sqrt : ℚ → ℚ) (v : Vector2),
       (Vector2.mag sqrt v ≤ EPSILON → v.norm sqrt = (0, v)) ∧
       (EPSILON < Vector2.mag sqrt v →
         v.norm sqrt = (Vector2.mag sqrt v,
           Vector2.mk (v.x / Vector2.mag sqrt v) (v.y / Vector2.mag sqrt v)))) ∧
    (∀ (sqrt : ℚ → ℚ) (v : Vector3),
       (Vector3.magnitude sqrt v ≤ EPSILON → v.normalize sqrt = (0, v)) ∧
       (EPSILON < Vector3.magnitude sqrt v →
         v.normalize sqrt = (Vector3.magnitude sqrt v,
           Vector3.mk (v.x / Vector3.magnitude sqrt v) (v.y / Vector3.magnitude sqrt v)
             (v.z / Vector3.magnitude sqrt v)))) ∧
    (∀ (sqrt : ℚ → ℚ) (v : Vector4),
       (Vector4.mag sqrt v ≤ EPSILON → v.norm sqrt = (0, v)) ∧
       (EPSILON < Vector4.mag sqrt v →
         v.norm sqrt = (Vector4.mag sqrt v,
           Vector4.mk (v.x / Vector4.mag sqrt v) (v.y / Vector4.mag sqrt v)
             (v.z / Vector4.mag sqrt v) (v.w / Vector4.mag sqrt v)))) := by
  refine ⟨fun sqrt v => ⟨fun h => ?_, fun h => ?_⟩,
          fun sqrt v => ⟨fun h => ?_, fun h => ?_⟩,
          fun sqrt v => ⟨fun h => ?_, fun h => ?_⟩⟩
  · simp only [Vector2.norm]
    rw [if_neg (not_lt.mpr h)]
  · simp only [Vector2.norm]
    rw [if_pos h]
  · simp only [Vector3.normalize]
    rw [if_neg (not_lt.mpr h)]
  · simp only [Vector3.normalize]
    rw [if_pos h]
  · simp only [Vector4.norm]
    rw [if_neg (not_lt.mpr h)]
  · simp only [Vector4.norm]
    rw [if_pos h]

/-- Witness for C4: both branches of each of the three statements, with a
concrete `sqrt` table that is exact on the magnitudes involved — the zero
vectors take the epsilon branch, and vectors of magnitude 5, 3 and 4 take
the normalizing branch. -/
theorem normalize_magnitude_or_epsilon_guard_witness :
    (Vector2.mk 0 0).norm (fun q => if q = 25 then 5 else if q = 9 then 3 else if q = 16 then 4 else 0)
      = (0, Vector2.mk 0 0) ∧
    (Vector2.mk 3 4).norm (fun q => if q = 25 then 5 else if q = 9 then 3 else if q = 16 then 4 else 0)
      = (5, Vector2.mk (3 / 5) (4 / 5)) ∧
    (Vector3.mk 0 0 0).normalize (fun q => if q = 25 then 5 else if q = 9 then 3 else if q = 16 then 4 else 0)
      = (0, Vector3.mk 0 0 0) ∧
    (Vector3.mk 1 2 2).normalize (fun q => if q = 25 then 5 else if q = 9 then 3 else if q = 16 then 4 else 0)
      = (3, Vector3.mk (1 / 3) (2 / 3) (2 / 3)) ∧
    (Vector4.mk 0 0 0 0).norm (fun q => if q = 25 then 5 else if q = 9 then 3 else if q = 16 then 4 else 0)
      = (0, Vector4.mk 0 0 0 0) ∧
    (Vector4.mk 2 2 2 2).norm (fun q => if q = 25 then 5 else if q = 9 then 3 else if q = 16 then 4 else 0)
      = (4, Vector4.mk (2 / 4) (2 / 4) (2 / 4) (2 / 4)) := by
  refine ⟨(normalize_magnitude_or_epsilon_guard.1 _ _).1 ?_,
          ?_, (normalize_magnitude_or_epsilon_guard.2.1 _ _).1 ?_, ?_,
          (normalize_magnitude_or_epsilon_guard.2.2 _ _).1 ?_, ?_⟩
  · norm_num [Vector2.mag, Vector2.mag_sq, EPSILON]
  · rw [(normalize_magnitude_or_epsilon_guard.1 _ _).2
      (by norm_num [Vector2.mag, Vector2.mag_sq, EPSILON])]
    norm_num [Vector2.mag, Vector2.mag_sq]
  · norm_num [Vector3.magnitude, Vector3.magnitude_squared, EPSILON]
  · rw [(normalize_magnitude_or_epsilon_guard.2.1 _ _).2
      (by norm_num [Vector3.magnitude, Vector3.magnitude_squared, EPSILON])]
    norm_num [Vector3.magnitude, Vector3.magnitude_squared]
  · norm_num [Vector4.mag, Vector4.mag_sq, EPSILON]
  · rw [(normalize_magnitude_or_epsilon_guard.2.2 _ _).2
      (by norm_num [Vector4.mag, Vector4.mag_sq, EPSILON])]
    norm_num [Vector4.mag, Vector4.mag_sq]

/-- C5: in `Matrix4::perspective` the second of the two consecutive
`set_m43` calls clobbers the first, so the returned matrix has
`m43 = -2*near*far/(far-near)` (not `-1.0`) and `m34 = 0.0`; likewise in
`Matrix4::rotate_y` the second `set_m31` call clobbers the first, so the
returned matrix has `m31 = sin(angle)` (not `-sin(angle)`) and
`m13 = 0.0`.  Stated for every choice of the `to_radians`, `sin` and
`cos` primitives. -/
theorem perspective_rotate_y_second_set_clobbers :
    (∀ (toRadians sin cos : ℚ → ℚ) (fov aspect_ratio near far : ℚ),
       (Matrix4.perspective toRadians sin cos fov aspect_ratio near far).m43
           = -2 * near * far / (far - near) ∧
       (Matrix4.perspective toRadians sin cos fov aspect_ratio near far).m34 = 0) ∧
    (∀ (sin cos : ℚ → ℚ) (angle : ℚ),
       (Matrix4.rotate_y sin cos angle).m31 = sin angle ∧
       (Matrix4.rotate_y sin cos angle).m13 = 0) :=
  ⟨fun _ _ _ _ _ _ _ => ⟨rfl, rfl⟩, fun _ _ _ => ⟨rfl, rfl⟩⟩

/-- C6: for every vector size, indexing with 0 .. N-1 returns the
corresponding component for both read and write access, and any index
outside that range panics (modelled as `none`) for both accesses. -/
theorem index_in_range_components_out_of_range_panics :
    (∀ v : Vector2,
       (v.index 0 = some v.x ∧ v.index 1 = some v.y) ∧
       (∀ c : ℚ, v.index_mut 0 c = some (Vector2.mk c v.y) ∧
          v.index_mut 1 c = some (Vector2.mk v.x c)) ∧
       (∀ i : ℕ, 2 ≤ i → v.index i = none ∧ ∀ c : ℚ, v.index_mut i c = none)) ∧
    (∀ v : Vector3,
       (v.index 0 = some v.x ∧ v.index 1 = some v.y ∧ v.index 2 = some v.z) ∧
       (∀ c : ℚ, v.index_mut 0 c = some (Vector3.mk c v.y v.z) ∧
          v.index_mut 1 c = some (Vector3.mk v.x c v.z) ∧
          v.index_mut 2 c = some (Vector3.mk v.x v.y c)) ∧
       (∀ i : ℕ, 3 ≤ i → v.index i = none ∧ ∀ c : ℚ, v.index_mut i c = none)) ∧
    (∀ v : Vector4,
       (v.index 0 = some v.x ∧ v.index 1 = some v.y ∧ v.index 2 = some v.z ∧
          v.index 3 = some v.w) ∧
       (∀ c : ℚ, v.index_mut 0 c = some (Vector4.mk c v.y v.z v.w) ∧
          v.index_mut 1 c = some (Vector4.mk v.x c v.z v.w) ∧
          v.index_mut 2 c = some (Vector4.mk v.x v.y c v.w) ∧
          v.index_mut 3 c = some (Vector4.mk v.x v.y v.z c)) ∧
       (∀ i : ℕ, 4 ≤ i → v.index i = none ∧ ∀ c : ℚ, v.index_mut i c = none)) := by
  refine ⟨fun v => ⟨⟨rfl, rfl⟩, fun c => ⟨rfl, rfl⟩, fun i hi => ?_⟩,
          fun v => ⟨⟨rfl, rfl, rfl⟩, fun c => ⟨rfl, rfl, rfl⟩, fun i hi => ?_⟩,
          fun v => ⟨⟨rfl, rfl, rfl, rfl⟩, fun c => ⟨rfl, rfl, rfl, rfl⟩, fun i hi => ?_⟩⟩
  · obtain ⟨k, rfl⟩ : ∃ k, i = k + 2 := ⟨i - 2, by omega⟩
    exact ⟨rfl, fun c => rfl⟩
  · obtain ⟨k, rfl⟩ : ∃ k, i = k + 3 := ⟨i - 3, by omega⟩
    exact ⟨rfl, fun c => rfl⟩
  · obtain ⟨k, rfl⟩ : ∃ k, i = k + 4 := ⟨i - 4, by omega⟩
    exact ⟨rfl, fun c => rfl⟩

/-- Witness for C6: the out-of-range branch of each of the three
statements applied at an explicit vector and index. -/
theorem index_in_range_components_out_of_range_panics_witness :
    ((Vector2.mk 1 2).index 5 = none ∧ (Vector2.mk 1 2).index_mut 5 7 = none) ∧
    ((Vector3.mk 1 2 3).index 5 = none ∧ (Vector3.mk 1 2 3).index_mut 5 7 = none) ∧
    ((Vector4.mk 1 2 3 4).index 5 = none ∧ (Vector4.mk 1 2 3 4).index_mut 5 7 = none) :=
  ⟨⟨((index_in_range_components_out_of_range_panics.1 _).2.2 5 (by norm_num)).1,
    ((index_in_range_components_out_of_range_panics.1 _).2.2 5 (by norm_num)).2 7⟩,
   ⟨((index_in_range_components_out_of_range_panics.2.1 _).2.2 5 (by norm_num)).1,
    ((index_in_range_components_out_of_range_panics.2.1 _).2.2 5 (by norm_num)).2 7⟩,
   ⟨((index_in_range_components_out_of_range_panics.2.2 _).2.2 5 (by norm_num)).1,
    ((index_in_range_components_out_of_range_panics.2.2 _).2.2 5 (by norm_num)).2 7⟩⟩

/-- C7 (counterexample): the claim quantifies over all Vector3 values and
compares with the library's componentwise `f32` operator `==`; at
`a = (NaN, 0, 0)` and `b = (0, 0, 0)` both cross products have NaN in
their y and z components, and NaN compares unequal to itself, so
`cross(a,b) == -cross(b,a)` is false at these inputs. -/
theorem cross_anticommutativity_counterexample :
    Vector3F.beq
      (Vector3F.cross (Vector3F.mk FQ.nan (FQ.fin 0) (FQ.fin 0))
        (Vector3F.mk (FQ.fin 0) (FQ.fin 0) (FQ.fin 0)))
      (Vector3F.neg (Vector3F.cross (Vector3F.mk (FQ.fin 0) (FQ.fin 0) (FQ.fin 0))
        (Vector3F.mk FQ.nan (FQ.fin 0) (FQ.fin 0)))) = false := by
  simp [Vector3F.cross, Vector3F.neg, Vector3F.beq, FQ.mul, FQ.sub, FQ.neg, FQ.beq]

/-- C7 (amended): for all Vector3 values a and b none of whose components
is NaN (and in the absence of overflow to infinity, which the exact model
has none of), `cross(a, b) == -cross(b, a)` holds under the library's
componentwise `f32` equality. -/
theorem cross_anticommutativity_nan_free (a b : Vector3F)
    (hax : a.x ≠ FQ.nan) (hay : a.y ≠ FQ.nan) (haz : a.z ≠ FQ.nan)
    (hbx : b.x ≠ FQ.nan) (hby : b.y ≠ FQ.nan) (hbz : b.z ≠ FQ.nan) :
    Vector3F.beq (Vector3F.cross a b) (Vector3F.neg (Vector3F.cross b a)) = true := by
  obtain ⟨ax, ay, az⟩ := a
  obtain ⟨bx, py, pz⟩ := b
  simp only at hax hay haz hbx hby hbz
  cases ax with
  | nan => exact absurd rfl hax
  | fin qax =>
  cases ay with
  | nan => exact absurd rfl hay
  | fin qay =>
  cases az with
  | nan => exact absurd rfl haz
  | fin qaz =>
  cases bx with
  | nan => exact absurd rfl hbx
  | fin qbx =>
  cases py with
  | nan => exact absurd rfl hby
  | fin qby =>
  cases pz with
  | nan => exact absurd rfl hbz
  | fin qbz =>
  simp only [Vector3F.cross, Vector3F.neg, Vector3F.beq, FQ.mul, FQ.sub, FQ.neg, FQ.beq,
    Bool.and_eq_true, decide_eq_true_eq]
  refine ⟨⟨by ring, by ring⟩, by ring⟩

/-- Witness for the amended C7: the anticommutativity equality applied at
two explicit NaN-free vectors. -/
theorem cross_anticommutativity_nan_free_witness :
    Vector3F.beq
      (Vector3F.cross (Vector3F.mk (FQ.fin 1) (FQ.fin 2) (FQ.fin 3))
        (Vector3F.mk (FQ.fin 4) (FQ.fin 5) (FQ.fin 6)))
      (Vector3F.neg (Vector3F.cross (Vector3F.mk (FQ.fin 4) (FQ.fin 5) (FQ.fin 6))
        (Vector3F.mk (FQ.fin 1) (FQ.fin 2) (FQ.fin 3)))) = true :=
  cross_anticommutativity_nan_free
    (Vector3F.mk (FQ.fin 1) (FQ.fin 2) (FQ.fin 3))
    (Vector3F.mk (FQ.fin 4) (FQ.fin 5) (FQ.fin 6))
    (by decide) (by decide) (by decide) (by decide) (by decide) (by decide)

/-- C8: for every vector size, clamping with bounds (a, b) gives the same
result as clamping with bounds (b, a), because clamp first takes the
componentwise min and max of the two bounds. -/
theorem clamp_bound_order_independent :
    (∀ v a b : Vector2, v.clamp a b = v.clamp b a) ∧
    (∀ v a b : Vector3, v.clamp a b = v.clamp b a) ∧
    (∀ v a b : Vector4, v.clamp a b = v.clamp b a) := by
  refine ⟨fun v a b => ?_, fun v a b => ?_, fun v a b => ?_⟩
  · simp only [Vector2.clamp, Vector2.min, Vector2.max, Vector2.make, Vector2.set]
    rw [min_comm a.x b.x, min_comm a.y b.y, max_comm a.x b.x, max_comm a.y b.y]
  · simp only [Vector3.clamp, Vector3.min, Vector3.max, Vector3.construct, Vector3.set]
    rw [min_comm a.x b.x, min_comm a.y b.y, min_comm a.z b.z,
      max_comm a.x b.x, max_comm a.y b.y, max_comm a.z b.z]
  · simp only [Vector4.clamp, Vector4.min, Vector4.max, Vector4.make, Vector4.set]
    rw [min_comm a.x b.x, min_comm a.y b.y, min_comm a.z b.z, min_comm a.w b.w,
      max_comm a.x b.x, max_comm a.y b.y, max_comm a.z b.z, max_comm a.w b.w]

/-- C9: for every `i32` value x with `1 ≤ x < 2³⁰`,
`next_power_of_two(x)` is the smallest power of two strictly greater
than x; in particular on a power of two the result is `2 * x`. -/
theorem next_power_of_two_correct (x : ℤ) (hx1 : 1 ≤ x) (hx2 : x < 2 ^ 30) :
    (∃ k : ℕ, next_power_of_two x = 2 ^ k ∧ x < 2 ^ k ∧
       ∀ j : ℕ, x < 2 ^ j → (2:ℤ) ^ k ≤ 2 ^ j) ∧
    (∀ m : ℕ, x = 2 ^ m → next_power_of_two x = 2 * x) := by
  obtain ⟨n, rfl⟩ : ∃ n : ℕ, x = (n : ℤ) := ⟨x.toNat, (Int.toNat_of_nonneg (by omega)).symm⟩
  have hn1 : 1 ≤ n := by exact_mod_cast hx1
  have hn2 : n < 2 ^ 30 := by exact_mod_cast hx2
  have hb : next_power_of_two (n : ℤ) = ((smearNat n : ℕ) : ℤ) + 1 := rfl
  have hs := smearNat_eq n hn1 hn2
  have hpow : (1:ℕ) ≤ 2 ^ (Nat.log 2 n + 1) := Nat.one_le_two_pow
  have hmain : next_power_of_two (n : ℤ) = ((2 ^ (Nat.log 2 n + 1) : ℕ) : ℤ) := by
    rw [hb, hs, Nat.cast_sub hpow]
    push_cast
    ring
  constructor
  · refine ⟨Nat.log 2 n + 1, ?_, ?_, ?_⟩
    · rw [hmain]
      push_cast
      ring
    · exact_mod_cast Nat.lt_pow_succ_log_self (by norm_num) n
    · intro j hj
      have hjn : n < 2 ^ j := by exact_mod_cast hj
      have hln : 2 ^ Nat.log 2 n ≤ n := Nat.pow_log_le_self 2 (by omega)
      have hLj : Nat.log 2 n < j := by
        by_contra hc
        push_neg at hc
        have hmono : (2:ℕ) ^ j ≤ 2 ^ Nat.log 2 n := Nat.pow_le_pow_right (by norm_num) hc
        omega
      exact_mod_cast Nat.pow_le_pow_right (by norm_num) (by omega : Nat.log 2 n + 1 ≤ j)
  · intro m hm
    have hnm : n = 2 ^ m := by exact_mod_cast hm
    have hLm : Nat.log 2 n = m := by rw [hnm, Nat.log_pow (by norm_num)]
    rw [hmain, hLm, hm]
    push_cast
    ring

/-- Witness for C9: the theorem applied at x = 2 (a power of two), where
the next power of two is 4; the explicit value 4 is checked directly. -/
theorem next_power_of_two_correct_witness :
    next_power_of_two 2 = 4 ∧
    (∃ k : ℕ, next_power_of_two 2 = 2 ^ k ∧ (2:ℤ) < 2 ^ k ∧
       ∀ j : ℕ, (2:ℤ) < 2 ^ j → (2:ℤ) ^ k ≤ 2 ^ j) ∧
    (∀ m : ℕ, (2:ℤ) = 2 ^ m → next_power_of_two 2 = 2 * 2) :=
  ⟨by decide,
   (next_power_of_two_correct 2 (by norm_num) (by norm_num)).1,
   (next_power_of_two_correct 2 (by norm_num) (by norm_num)).2⟩

/-- C10: vector and matrix `==` is exact componentwise `f32` comparison:
it is not reflexive on NaN — a vector or matrix with a NaN component
compares unequal to itself — while `-0.0` and `+0.0` compare equal. -/
theorem eq_componentwise_ieee_semantics :
    (∀ v w : Vector2F, Vector2F.beq v w = (F32V.beq v.x w.x && F32V.beq v.y w.y)) ∧
    (∀ v : Vector2F, v.x = F32V.nan ∨ v.y = F32V.nan → Vector2F.beq v v = false) ∧
    (∀ a : Matrix3F, F32V.nan ∈ a.elems → Matrix3F.beq a a = false) ∧
    (F32V.beq F32V.negZero (F32V.num 0) = true ∧
     F32V.beq (F32V.num 0) F32V.negZero = true) ∧
    Vector2F.beq (Vector2F.mk F32V.negZero (F32V.num 1))
      (Vector2F.mk (F32V.num 0) (F32V.num 1)) = true := by
  refine ⟨fun v w => rfl, fun v h => ?_, fun a h => ?_, ⟨?_, ?_⟩, ?_⟩
  · rcases h with h | h <;> simp [Vector2F.beq, h, F32V.beq]
  · simp only [Matrix3F.elems, List.mem_cons, List.not_mem_nil, or_false] at h
    rcases h with h | h | h | h | h | h | h | h | h <;>
      simp [Matrix3F.beq, ← h, F32V.beq]
  · simp [F32V.beq]
  · simp [F32V.beq]
  · simp [Vector2F.beq, F32V.beq]

/-- Witness for C10: non-reflexivity applied at an explicit NaN-carrying
vector and matrix. -/
theorem eq_componentwise_ieee_semantics_witness :
    Vector2F.beq (Vector2F.mk F32V.nan (F32V.num 0))
      (Vector2F.mk F32V.nan (F32V.num 0)) = false ∧
    Matrix3F.beq
      (Matrix3F.mk F32V.nan (F32V.num 0) (F32V.num 0) (F32V.num 0) (F32V.num 0)
        (F32V.num 0) (F32V.num 0) (F32V.num 0) (F32V.num 0))
      (Matrix3F.mk F32V.nan (F32V.num 0) (F32V.num 0) (F32V.num 0) (F32V.num 0)
        (F32V.num 0) (F32V.num 0) (F32V.num 0) (F32V.num 0)) = false :=
  ⟨eq_componentwise_ieee_semantics.2.1 _ (Or.inl rfl),
   eq_componentwise_ieee_semantics.2.2.1 _ (by simp [Matrix3F.elems])⟩

end Vex
